import Mathlib

/-
Formal model of the ReaderAI chapter boundary detection pipeline
(src/backend/readerai/pipeline/chapter_boundary_detector.py).

The pipeline has four stages: (1) an LM identifies chapters from a head
sample of the text, (2) an LM proposes a start/end regex pair per chapter
(concurrently), (3) each pair is validated against the document under a
uniqueness contract, (4) each surviving span is extracted and verified by
the LM.  LM calls and the regex engine are external collaborators; they are
modelled as function-valued parameters (an `Env`).  Machine integers are
modelled as `Int`/`Nat`; Python floats (only the `confidence` field, which
is only ever compared against the literal `0.8`) are modelled as `ℚ`.
-/

namespace ReaderAI

/-- ASCII whitespace, as recognised by Python's `str.strip`, `str.split()`
and `int()`.  (Python also accepts non-ASCII Unicode whitespace; the model
is restricted to ASCII, which covers every input exercised here.) -/
def isPySpace (c : Char) : Bool :=
  c == ' ' || c == '\t' || c == '\n' || c == '\r' || c == '\x0b' || c == '\x0c'

/-- Python `line.strip()`: remove leading and trailing whitespace. -/
def pyStrip (s : String) : String :=
  List.asString (((s.toList.dropWhile isPySpace).reverse.dropWhile isPySpace).reverse)

/-- Python `text.split("\n")`: split on every newline; `n` newlines give
`n + 1` pieces, and the empty string gives `[""]`. -/
def pySplitLines (s : String) : List String :=
  (s.toList.splitOn '\n').map List.asString

/-- Python `s.split()` (no separator): split on whitespace runs, dropping
empty pieces.  Used for `word_count = len(chapter_text.split())`. -/
def pyWhitespaceSplit (s : String) : List String :=
  ((s.toList.splitOnP isPySpace).map List.asString).filter (fun w => w != "")

/-- Python `extracted_text[:2000]`: first 2000 characters (code points). -/
def truncate2000 (s : String) : String :=
  List.asString (s.toList.take 2000)

/-- Accumulate a digit run, allowing single underscores between digits as
CPython's `int()` does (`int("1_0") = 10`, `int("1__0")` raises). -/
def pyDigitsAux : Nat → List Char → Option Nat
  | acc, [] => some acc
  | acc, '_' :: c :: cs =>
      if c.isDigit then pyDigitsAux (10 * acc + (c.toNat - 48)) cs else none
  | acc, c :: cs =>
      if c.isDigit then pyDigitsAux (10 * acc + (c.toNat - 48)) cs else none

/-- A nonempty digit run (with interior underscores), as in `int()`. -/
def pyDigitsVal : List Char → Option Nat
  | [] => none
  | c :: cs => if c.isDigit then pyDigitsAux (c.toNat - 48) cs else none

/-- Python `int(s)` on a string: optional surrounding whitespace, optional
sign, then a digit run; anything else raises `ValueError` (here: `none`).
Restricted to ASCII digits and whitespace as noted at `isPySpace`. -/
def pyInt (s : String) : Option Int :=
  match ((s.toList.dropWhile isPySpace).reverse.dropWhile isPySpace).reverse with
  | '+' :: rest => (pyDigitsVal rest).map (fun n => (n : Int))
  | '-' :: rest => (pyDigitsVal rest).map (fun n => -(n : Int))
  | rest => (pyDigitsVal rest).map (fun n => (n : Int))

/-- The Python exceptions that can escape the statements modelled here. -/
inductive PyErr where
  | valueError (msg : String) : PyErr
deriving DecidableEq

/-- Python `int(s)` in exception-aware form: raises `ValueError` exactly
when the conversion fails. -/
def pyIntE (s : String) : Except PyErr Int :=
  match pyInt s with
  | some n => Except.ok n
  | none => Except.error (PyErr.valueError s)

/-- Python `line.split(". ", 1)` when `". " in line`: the text before the
first occurrence of `". "` and everything after it; `none` when the
separator does not occur. -/
def splitFirstDotSpace : List Char → Option (List Char × List Char)
  | [] => none
  | '.' :: ' ' :: rest => some ([], rest)
  | c :: rest => (splitFirstDotSpace rest).map (fun ab => (c :: ab.1, ab.2))

/-- String-level wrapper for `splitFirstDotSpace`. -/
def splitOnceDotSpace (line : String) : Option (String × String) :=
  (splitFirstDotSpace line.toList).map
    (fun ab => (List.asString ab.1, List.asString ab.2))

/-- The body of `identify_chapters`' per-line parse, exception-aware: strip
the line; skip it when it is empty or lacks a `". "` separator; otherwise
convert the prefix with `int` (which may raise `ValueError`) and keep
`(number, title)` where `title` is everything after the first `". "`. -/
def parseBodyE (line : String) : Except PyErr (Option (Int × String)) :=
  let l := pyStrip line
  if l != "" then
    match splitOnceDotSpace l with
    | some (numStr, title) =>
        match pyIntE numStr with
        | Except.ok n => Except.ok (some (n, title))
        | Except.error e => Except.error e
    | none => Except.ok none
  else
    Except.ok none

/-- One line of the stage-1 parse with the source's `except ValueError:
continue` applied: a failing `int` conversion skips the line. -/
def parseChapterLine (line : String) : Option (Int × String) :=
  match parseBodyE line with
  | Except.ok o => o
  | Except.error _ => none

/-- The stage-1 parse of the LM's `chapter_list` in `identify_chapters`. -/
def parseChapterList (s : String) : List (Int × String) :=
  (pySplitLines s).filterMap parseChapterLine

/-- Catch `ValueError` around a per-line body, as the source's
`try ... except ValueError: continue` does. -/
def tryValueError (x : Except PyErr (Option (Int × String))) :
    Except PyErr (Option (Int × String)) :=
  match x with
  | Except.ok o => Except.ok o
  | Except.error (PyErr.valueError _) => Except.ok none

/-- Run an exception-aware body over a list, keeping the `some` results,
propagating any uncaught exception. -/
def mapFilterE (f : String → Except PyErr (Option (Int × String))) :
    List String → Except PyErr (List (Int × String))
  | [] => Except.ok []
  | a :: as =>
    match f a with
    | Except.error e => Except.error e
    | Except.ok o =>
      match mapFilterE f as with
      | Except.error e => Except.error e
      | Except.ok rest =>
        Except.ok (match o with | some b => b :: rest | none => rest)

/-- The stage-1 parse loop in exception-aware form: each line's body may
raise `ValueError`, which the loop catches and turns into a skip. -/
def parseChapterListE (s : String) : Except PyErr (List (Int × String)) :=
  mapFilterE (fun line => tryValueError (parseBodyE line)) (pySplitLines s)


/-- The `ChapterBoundaryPair` dataclass: a pair of regex patterns defining
one chapter's boundaries.  The two line fields are Python `int | None`; the
code only ever stores `enumerate` indices in them, so they are `Option Nat`. -/
structure ChapterBoundaryPair where
  chapter_number : Int
  chapter_title : String
  start_pattern : String
  end_pattern : String
  start_line : Option Nat
  end_line : Option Nat
  is_valid : Bool
deriving DecidableEq

/-- The `ChapterExtractionResult` dataclass: result of extracting a single
chapter.  The line fields are Python `int`, hence `Int`. -/
structure ChapterExtractionResult where
  chapter_number : Int
  chapter_title : String
  text : String
  start_line : Int
  end_line : Int
  word_count : Nat
  verification_passed : Bool
  verification_notes : Option String
deriving DecidableEq

/-- An LM transport failure (a dspy call raising). -/
structure LMError where
  message : String
deriving DecidableEq

/-- The `ChapterIdentificationSignature` output fields used by the code
(the `analysis` field is discarded and omitted). -/
structure IdentifyOutput where
  chapter_count : Int
  chapter_list : String
deriving DecidableEq

/-- The `BoundaryPatternSignature` output fields used by the code
(`pattern_explanation` is discarded and omitted). -/
structure BoundaryOutput where
  start_pattern : String
  end_pattern : String
deriving DecidableEq

/-- The `ChapterVerificationSignature` output fields.  `confidence` is a
Python float in `[0, 1]`, modelled as `ℚ`; the code only compares it with
the literal `0.8`. -/
structure VerifyOutput where
  is_correct : Bool
  confidence : ℚ
  notes : String
deriving DecidableEq

/-- The external collaborators of a `ChapterDetector`: the three dspy LM
programs (which may raise `LMError`), and the regex engine.  `compile p`
is `none` when `re.compile(p, re.IGNORECASE | re.MULTILINE)` raises
`re.error`, and otherwise the line predicate `fun line => regex.search(line)
is not None`. -/
structure Env where
  identifyChapters : String → Except LMError IdentifyOutput
  generateBoundaries : String → Int → String → Except LMError BoundaryOutput
  verifyChapter : String → Int → String → Except LMError VerifyOutput
  compile : String → Option (String → Bool)

/-- `ChapterDetector.identify_chapters`: sample the first `sample_size`
lines, ask the LM, and parse its `chapter_list`.  The method's default
`sample_size` is 3000. -/
def identify_chapters (env : Env) (text : String) (sample_size : Nat) :
    Except LMError (Int × List (Int × String)) :=
  let lines := pySplitLines text
  let sample_lines := if lines.length > sample_size then lines.take sample_size else lines
  let sample_text := String.intercalate "\n" sample_lines
  match env.identifyChapters sample_text with
  | Except.error e => Except.error e
  | Except.ok r => Except.ok (r.chapter_count, parseChapterList r.chapter_list)

/-- `ChapterDetector.generate_boundary_patterns_async` for one chapter:
ask the LM for the two patterns and build the pair with line fields unset. -/
def generate_boundary_patterns (env : Env) (text : String)
    (chapter_number : Int) (chapter_title : String) :
    Except LMError ChapterBoundaryPair :=
  match env.generateBoundaries text chapter_number chapter_title with
  | Except.error e => Except.error e
  | Except.ok r =>
      Except.ok { chapter_number := chapter_number, chapter_title := chapter_title,
                  start_pattern := r.start_pattern, end_pattern := r.end_pattern,
                  start_line := none, end_line := none, is_valid := false }

/-- Sequential collection of per-chapter `Except` computations: the first
raised exception aborts the whole collection (in the source, an exception
in one task of the `anyio` task group cancels its siblings and propagates,
so no per-chapter results survive). -/
def mapME {α β : Type} (f : α → Except LMError β) : List α → Except LMError (List β)
  | [] => Except.ok []
  | a :: as =>
    match f a with
    | Except.error e => Except.error e
    | Except.ok b =>
      match mapME f as with
      | Except.error e => Except.error e
      | Except.ok bs => Except.ok (b :: bs)

/-- Ordering used by `results.sort(key=lambda x: x.chapter_number)`. -/
def pairLE (a b : ChapterBoundaryPair) : Prop :=
  a.chapter_number ≤ b.chapter_number

instance : DecidableRel pairLE :=
  fun a b => inferInstanceAs (Decidable (a.chapter_number ≤ b.chapter_number))

instance : IsTotal ChapterBoundaryPair pairLE :=
  ⟨fun a b => Int.le_total a.chapter_number b.chapter_number⟩

instance : IsTrans ChapterBoundaryPair pairLE :=
  ⟨fun _ _ _ h1 h2 => le_trans h1 h2⟩

/-- `ChapterDetector.generate_all_boundaries`: one LM task per chapter in a
task group; completed results are appended in completion order and then
sorted (stably, ascending) by chapter number.  `arrival` is the chapter
list in task-completion order; a stable insertion sort is extensionally
equal to Python's stable `list.sort(key=...)`. -/
def generate_all_boundaries (env : Env) (text : String)
    (arrival : List (Int × String)) : Except LMError (List ChapterBoundaryPair) :=
  match mapME (fun c => generate_boundary_patterns env text c.1 c.2) arrival with
  | Except.error e => Except.error e
  | Except.ok results => Except.ok (List.insertionSort pairLE results)

/-- The indices of the lines on which a compiled pattern finds a match,
in ascending order (the `for i, line in enumerate(lines)` scan of
`validate_patterns`). -/
def matchLines (p : String → Bool) (lines : List String) : List Nat :=
  (List.range lines.length).filter (fun i => p (lines.getD i ""))

/-- The per-pair body of `ChapterDetector.validate_patterns`: compile both
patterns (a failure sets `is_valid = false` and moves on), collect the
matching line indices, and accept exactly when each pattern matched exactly
once with the start strictly before the end; in that case the two line
fields are populated. -/
def validatePair (compile : String → Option (String → Bool))
    (lines : List String) (pair : ChapterBoundaryPair) : ChapterBoundaryPair :=
  match compile pair.start_pattern with
  | none => { pair with is_valid := false }
  | some sp =>
    match compile pair.end_pattern with
    | none => { pair with is_valid := false }
    | some ep =>
      match matchLines sp lines, matchLines ep lines with
      | [s], [e] =>
          { pair with start_line := some s, end_line := some e,
                      is_valid := decide (s < e) }
      | _, _ => { pair with is_valid := false }

/-- `ChapterDetector.validate_patterns`: validate every pair against the
document's lines. -/
def validate_patterns (compile : String → Option (String → Bool))
    (text : String) (boundary_pairs : List ChapterBoundaryPair) :
    List ChapterBoundaryPair :=
  (boundary_pairs).map (validatePair compile (pySplitLines text))

/-- `ChapterDetector.extract_chapter`: the inclusive line slice
`text_lines[start_line : end_line + 1]` joined by newlines; empty when the
pair is invalid or a line field is unset. -/
def extract_chapter (text_lines : List String) (boundary_pair : ChapterBoundaryPair) :
    String :=
  if boundary_pair.is_valid then
    match boundary_pair.start_line, boundary_pair.end_line with
    | some s, some e => String.intercalate "\n" ((text_lines.take (e + 1)).drop s)
    | _, _ => ""
  else ""

/-- The body of the stage-4 loop of `extract_all_chapters` for one valid
pair: extract the span, send its first 2000 characters to the verifier LM,
and build the `ChapterExtractionResult`.  `pair.start_line or 0` is the
Python `or`-default; `verification_passed = is_correct and confidence > 0.8`. -/
def stage4Step (env : Env) (text_lines : List String)
    (pair : ChapterBoundaryPair) : Except LMError ChapterExtractionResult :=
  let chapter_text := extract_chapter text_lines pair
  match env.verifyChapter (truncate2000 chapter_text) pair.chapter_number
      pair.chapter_title with
  | Except.error e => Except.error e
  | Except.ok v =>
      Except.ok { chapter_number := pair.chapter_number,
                  chapter_title := pair.chapter_title,
                  text := chapter_text,
                  start_line := Int.ofNat (pair.start_line.getD 0),
                  end_line := Int.ofNat (pair.end_line.getD 0),
                  word_count := (pyWhitespaceSplit chapter_text).length,
                  verification_passed := v.is_correct && decide (v.confidence > mkRat 4 5),
                  verification_notes := some v.notes }

/-- `ChapterDetector.extract_all_chapters`, the complete pipeline: identify
chapters (stage 1), generate boundary patterns concurrently (stage 2),
validate them (stage 3), then extract and verify each valid pair (stage 4;
a sequential loop in the source).  `sched` reorders the identified chapter
list into the completion order of the concurrent stage-2 tasks. -/
def extract_all_chapters (env : Env)
    (sched : List (Int × String) → List (Int × String)) (text : String) :
    Except LMError (List ChapterExtractionResult) :=
  match identify_chapters env text 3000 with
  | Except.error e => Except.error e
  | Except.ok (_, chapters) =>
    match generate_all_boundaries env text (sched chapters) with
    | Except.error e => Except.error e
    | Except.ok pairs0 =>
      let boundary_pairs := validate_patterns env.compile text pairs0
      let text_lines := pySplitLines text
      mapME (stage4Step env text_lines) (boundary_pairs.filter (fun p => p.is_valid))

/-- Regex engine stub for concrete runs: every pattern compiles, and a
pattern matches exactly the lines equal to it. -/
def eqMatcher : String → Option (String → Bool) :=
  fun p => some (fun l => l == p)

/-- A deterministic LM stub: one chapter titled "One" bounded by the lines
"A" and "B", verified at confidence 0.9. -/
def happyEnv : Env :=
  { identifyChapters := fun _ => Except.ok { chapter_count := 1, chapter_list := "1. One" },
    generateBoundaries := fun _ _ _ =>
      Except.ok { start_pattern := "A", end_pattern := "B" },
    verifyChapter := fun _ _ _ =>
      Except.ok { is_correct := true, confidence := mkRat 9 10, notes := "ok" },
    compile := eqMatcher }

/-- The document used with `happyEnv`. -/
def happyText : String := "A\nx\nB"

/-- The single extraction the pipeline produces from `happyEnv` and
`happyText`. -/
def happyResult : ChapterExtractionResult :=
  { chapter_number := 1, chapter_title := "One", text := "A\nx\nB",
    start_line := 0, end_line := 2, word_count := 3,
    verification_passed := true, verification_notes := some "ok" }


/-- The boundary pair produced by stage 2 for `happyEnv`'s one chapter. -/
def happyPair : ChapterBoundaryPair :=
  { chapter_number := 1, chapter_title := "One",
    start_pattern := "A", end_pattern := "B",
    start_line := none, end_line := none, is_valid := false }

/-- Like `happyEnv`, but the verifier answers `is_correct = true` with
confidence exactly 0.8. -/
def c1Env : Env :=
  { identifyChapters := fun _ => Except.ok { chapter_count := 1, chapter_list := "1. One" },
    generateBoundaries := fun _ _ _ =>
      Except.ok { start_pattern := "A", end_pattern := "B" },
    verifyChapter := fun _ _ _ =>
      Except.ok { is_correct := true, confidence := mkRat 4 5, notes := "ok" },
    compile := eqMatcher }

/-- An LM stub whose stage-1 chapter list repeats the number 1 for two
different chapters, with distinct boundary patterns per title. -/
def c2Env : Env :=
  { identifyChapters := fun _ =>
      Except.ok { chapter_count := 2, chapter_list := "1. A\n1. B" },
    generateBoundaries := fun _ _ title =>
      Except.ok (if title == "A"
        then { start_pattern := "A0", end_pattern := "A1" }
        else { start_pattern := "B0", end_pattern := "B1" }),
    verifyChapter := fun _ _ _ =>
      Except.ok { is_correct := true, confidence := mkRat 9 10, notes := "ok" },
    compile := eqMatcher }

/-- The document used with `c2Env`. -/
def c2Text : String := "A0\nA1\nB0\nB1"

/-- An LM stub that identifies three chapters but whose stage-2 call for
chapter 2 raises `LMError`, while the calls for chapters 1 and 3 succeed. -/
def c3Env : Env :=
  { identifyChapters := fun _ =>
      Except.ok { chapter_count := 3, chapter_list := "1. One\n2. Two\n3. Three" },
    generateBoundaries := fun _ num _ =>
      if num == 2 then Except.error { message := "boom" }
      else Except.ok { start_pattern := "A", end_pattern := "B" },
    verifyChapter := fun _ _ _ =>
      Except.ok { is_correct := true, confidence := mkRat 9 10, notes := "ok" },
    compile := eqMatcher }

/-- Numeric value of a digit run (used by the spec-side regex parse). -/
def digitsToNat (ds : List Char) : Nat :=
  ds.foldl (fun acc c => 10 * acc + (c.toNat - 48)) 0

/-- Modelled from the spec: the stage-1 per-line parse the spec describes,
`^\s*(\d+)\.\s+(.+?)\s*$` with the title trimmed — optional leading
whitespace, a digit run, a literal dot, at least one whitespace character,
then at least one further character; the title is the remainder with
surrounding whitespace removed.  Declared only to compare the source's
`parseChapterLine` against the spec's words. -/
def specParseLine (line : String) : Option (Int × String) :=
  let cs := line.toList.dropWhile isPySpace
  let digits := cs.takeWhile (fun c => c.isDigit)
  if digits.isEmpty then none
  else
    match cs.dropWhile (fun c => c.isDigit) with
    | '.' :: c :: rest =>
        if isPySpace c && !rest.isEmpty then
          some ((digitsToNat digits : Nat), pyStrip (List.asString (c :: rest)))
        else none
    | _ => none

/-- Modelled from the spec: the whole-list parse under the spec's regex,
skipping non-matching lines. -/
def specParseList (s : String) : List (Int × String) :=
  (pySplitLines s).filterMap specParseLine


/-- Every index a pattern scan records is a valid line index. -/
lemma mem_matchLines_lt {p : String → Bool} {lines : List String} {i : Nat}
    (h : i ∈ matchLines p lines) : i < lines.length := by
  unfold matchLines at h
  exact List.mem_range.mp (List.mem_of_mem_filter h)

/-- Stage-3 validation only touches the line fields and the validity flag. -/
lemma validatePair_fields (c : String → Option (String → Bool))
    (lines : List String) (pair : ChapterBoundaryPair) :
    (validatePair c lines pair).chapter_number = pair.chapter_number ∧
    (validatePair c lines pair).chapter_title = pair.chapter_title ∧
    (validatePair c lines pair).start_pattern = pair.start_pattern ∧
    (validatePair c lines pair).end_pattern = pair.end_pattern := by
  unfold validatePair
  split
  · exact ⟨rfl, rfl, rfl, rfl⟩
  · split
    · exact ⟨rfl, rfl, rfl, rfl⟩
    · split
      · exact ⟨rfl, rfl, rfl, rfl⟩
      · exact ⟨rfl, rfl, rfl, rfl⟩

/-- A pair stage-3 validation accepts got there through the unique-match
branch: both patterns compiled, each matched exactly one line, the start
strictly before the end, and both line fields were populated with those
indices. -/
lemma validatePair_valid {c : String → Option (String → Bool)} {lines : List String}
    {pair : ChapterBoundaryPair} (h : (validatePair c lines pair).is_valid = true) :
    ∃ sp ep s e, c pair.start_pattern = some sp ∧ c pair.end_pattern = some ep ∧
      matchLines sp lines = [s] ∧ matchLines ep lines = [e] ∧ s < e ∧
      (validatePair c lines pair).start_line = some s ∧
      (validatePair c lines pair).end_line = some e := by
  cases hsp : c pair.start_pattern with
  | none => simp [validatePair, hsp] at h
  | some sp =>
    cases hep : c pair.end_pattern with
    | none => simp [validatePair, hsp, hep] at h
    | some ep =>
      cases hsm : matchLines sp lines with
      | nil => simp [validatePair, hsp, hep, hsm] at h
      | cons s tail =>
        cases tail with
        | cons a b => simp [validatePair, hsp, hep, hsm] at h
        | nil =>
          cases hem : matchLines ep lines with
          | nil => simp [validatePair, hsp, hep, hsm, hem] at h
          | cons e tail2 =>
            cases tail2 with
            | cons a b => simp [validatePair, hsp, hep, hsm, hem] at h
            | nil =>
              refine ⟨sp, ep, s, e, rfl, rfl, hsm, hem, ?_, ?_, ?_⟩
              · simpa [validatePair, hsp, hep, hsm, hem] using h
              · simp [validatePair, hsp, hep, hsm, hem]
              · simp [validatePair, hsp, hep, hsm, hem]

/-- The full characterization of stage-3 acceptance for one pair. -/
lemma validatePair_isValid_iff (c : String → Option (String → Bool))
    (lines : List String) (pair : ChapterBoundaryPair) :
    (validatePair c lines pair).is_valid = true ↔
    ∃ sp ep s e, c pair.start_pattern = some sp ∧ c pair.end_pattern = some ep ∧
      matchLines sp lines = [s] ∧ matchLines ep lines = [e] ∧ s < e := by
  constructor
  · intro h
    obtain ⟨sp, ep, s, e, hsp, hep, hsm, hem, hlt, _, _⟩ := validatePair_valid h
    exact ⟨sp, ep, s, e, hsp, hep, hsm, hem, hlt⟩
  · rintro ⟨sp, ep, s, e, hsp, hep, hsm, hem, hlt⟩
    simp [validatePair, hsp, hep, hsm, hem, hlt]

/-- Every element of a successful `mapME` run comes from a successful call
on some input element. -/
lemma mapME_ok_forall {α β : Type} {f : α → Except LMError β} :
    ∀ {l : List α} {rs : List β}, mapME f l = Except.ok rs →
      ∀ r ∈ rs, ∃ a ∈ l, f a = Except.ok r := by
  intro l
  induction l with
  | nil =>
    intro rs h r hr
    unfold mapME at h
    cases h
    simp at hr
  | cons a as ih =>
    intro rs h r hr
    unfold mapME at h
    cases hfa : f a with
    | error e => rw [hfa] at h; exact Except.noConfusion h
    | ok b =>
      rw [hfa] at h
      cases hrest : mapME f as with
      | error e => rw [hrest] at h; exact Except.noConfusion h
      | ok bs =>
        rw [hrest] at h
        cases h
        rcases List.mem_cons.mp hr with h1 | h2
        · exact ⟨a, List.mem_cons_self a as, h1 ▸ hfa⟩
        · obtain ⟨a', ha', hfa'⟩ := ih hrest r h2
          exact ⟨a', List.mem_cons_of_mem _ ha', hfa'⟩

/-- A successful `mapME` run made a successful call on every input. -/
lemma mapME_ok_mem {α β : Type} {f : α → Except LMError β} :
    ∀ {l : List α} {rs : List β}, mapME f l = Except.ok rs →
      ∀ a ∈ l, ∃ b, f a = Except.ok b := by
  intro l
  induction l with
  | nil => intro rs _ a ha; simp at ha
  | cons x xs ih =>
    intro rs h a ha
    unfold mapME at h
    cases hfx : f x with
    | error e => rw [hfx] at h; exact Except.noConfusion h
    | ok b =>
      rw [hfx] at h
      cases hrest : mapME f xs with
      | error e => rw [hrest] at h; exact Except.noConfusion h
      | ok bs =>
        rcases List.mem_cons.mp ha with h1 | h2
        · exact ⟨b, h1 ▸ hfx⟩
        · exact ih hrest a h2

/-- If every call succeeds, the whole `mapME` run succeeds. -/
lemma mapME_all_ok {α β : Type} {f : α → Except LMError β} :
    ∀ {l : List α}, (∀ a ∈ l, ∃ b, f a = Except.ok b) →
      ∃ rs, mapME f l = Except.ok rs := by
  intro l
  induction l with
  | nil => intro _; exact ⟨[], rfl⟩
  | cons a as ih =>
    intro h
    obtain ⟨b, hb⟩ := h a (List.mem_cons_self a as)
    obtain ⟨bs, hbs⟩ := ih (fun x hx => h x (List.mem_cons_of_mem _ hx))
    refine ⟨b :: bs, ?_⟩
    unfold mapME
    rw [hb, hbs]

/-- Transport a per-element function equation along a successful `mapME`. -/
lemma mapME_ok_map {α β γ : Type} {f : α → Except LMError β} {g : α → γ} {k : β → γ}
    (hcomp : ∀ a b, f a = Except.ok b → k b = g a) :
    ∀ {l : List α} {rs : List β}, mapME f l = Except.ok rs →
      rs.map k = l.map g := by
  intro l
  induction l with
  | nil => intro rs h; cases h; rfl
  | cons a as ih =>
    intro rs h
    unfold mapME at h
    cases hfa : f a with
    | error e => rw [hfa] at h; exact Except.noConfusion h
    | ok b =>
      rw [hfa] at h
      cases hrest : mapME f as with
      | error e => rw [hrest] at h; exact Except.noConfusion h
      | ok bs =>
        rw [hrest] at h
        cases h
        simp only [List.map_cons]
        rw [hcomp a b hfa, ih hrest]

/-- Inversion of the stage-4 loop body: a produced result records the
extracted text, the pair's identity and line fields, and the verifier's
verdict thresholded at strictly more than 0.8. -/
lemma stage4Step_ok {env : Env} {lines : List String} {pair : ChapterBoundaryPair}
    {r : ChapterExtractionResult} (h : stage4Step env lines pair = Except.ok r) :
    ∃ v, env.verifyChapter (truncate2000 (extract_chapter lines pair))
        pair.chapter_number pair.chapter_title = Except.ok v ∧
      r = { chapter_number := pair.chapter_number,
            chapter_title := pair.chapter_title,
            text := extract_chapter lines pair,
            start_line := Int.ofNat (pair.start_line.getD 0),
            end_line := Int.ofNat (pair.end_line.getD 0),
            word_count := (pyWhitespaceSplit (extract_chapter lines pair)).length,
            verification_passed := v.is_correct && decide (v.confidence > mkRat 4 5),
            verification_notes := some v.notes } := by
  simp only [stage4Step] at h
  cases hv : env.verifyChapter (truncate2000 (extract_chapter lines pair))
      pair.chapter_number pair.chapter_title with
  | error e => rw [hv] at h; exact Except.noConfusion h
  | ok v =>
    rw [hv] at h
    cases h
    exact ⟨v, rfl, rfl⟩

/-- Inversion of the pipeline's stage sequencing for a successful run. -/
lemma extract_all_ok {env : Env} {sched : List (Int × String) → List (Int × String)}
    {text : String} {results : List ChapterExtractionResult}
    (h : extract_all_chapters env sched text = Except.ok results) :
    ∃ cc chapters pairs0,
      identify_chapters env text 3000 = Except.ok (cc, chapters) ∧
      generate_all_boundaries env text (sched chapters) = Except.ok pairs0 ∧
      mapME (stage4Step env (pySplitLines text))
        ((validate_patterns env.compile text pairs0).filter (fun p => p.is_valid)) =
        Except.ok results := by
  unfold extract_all_chapters at h
  split at h
  · exact Except.noConfusion h
  · rename_i cc chapters heq1
    split at h
    · exact Except.noConfusion h
    · rename_i pairs0 heq2
      exact ⟨cc, chapters, pairs0, heq1, heq2, h⟩

/-- Inversion of stage 2: a successful concurrent generation is the stable
sort of the raw completion-order results. -/
lemma generate_all_ok {env : Env} {text : String} {arrival : List (Int × String)}
    {pairs0 : List ChapterBoundaryPair}
    (h : generate_all_boundaries env text arrival = Except.ok pairs0) :
    ∃ raw, mapME (fun c => generate_boundary_patterns env text c.1 c.2) arrival =
        Except.ok raw ∧ pairs0 = List.insertionSort pairLE raw := by
  unfold generate_all_boundaries at h
  cases hraw : mapME (fun c => generate_boundary_patterns env text c.1 c.2) arrival with
  | error e => rw [hraw] at h; exact Except.noConfusion h
  | ok raw =>
    rw [hraw] at h
    cases h
    exact ⟨raw, rfl, rfl⟩

/-- Inversion of the per-chapter stage-2 call. -/
lemma generate_boundary_patterns_ok {env : Env} {text : String} {num : Int}
    {title : String} {pair : ChapterBoundaryPair}
    (h : generate_boundary_patterns env text num title = Except.ok pair) :
    ∃ b, env.generateBoundaries text num title = Except.ok b ∧
      pair = { chapter_number := num, chapter_title := title,
               start_pattern := b.start_pattern, end_pattern := b.end_pattern,
               start_line := none, end_line := none, is_valid := false } := by
  unfold generate_boundary_patterns at h
  cases hb : env.generateBoundaries text num title with
  | error e => rw [hb] at h; exact Except.noConfusion h
  | ok b =>
    rw [hb] at h
    cases h
    exact ⟨b, rfl, rfl⟩

/-- The inclusive Python slice `l[s : e + 1]`, element by element. -/
lemma take_drop_slice (l : List String) (s e : Nat) (hse : s ≤ e) (he : e < l.length) :
    (l.take (e + 1)).drop s = (List.range (e + 1 - s)).map (fun k => l.getD (s + k) "") := by
  have h1 : e + 1 ≤ l.length := he
  apply List.ext_getElem
  · rw [List.length_drop, List.length_take, Nat.min_eq_left h1, List.length_map,
      List.length_range]
  · intro n h₁ h₂
    have hn : n < e + 1 - s := by
      have := h₁
      rw [List.length_drop, List.length_take, Nat.min_eq_left h1] at this
      exact this
    have hb : s + n < l.length := by omega
    rw [List.getElem_drop, List.getElem_take, List.getElem_map, List.getElem_range,
      List.getD_eq_getElem l "" hb]

/-- C4: stage-3 validation marks a boundary pair valid if and only if both
patterns compile, each matches exactly one line of the document, and the
start match's line index is strictly below the end match's; any compile
failure, zero matches or multiple matches yields `is_valid = false`
(`validatePair` is total, so the run never aborts). -/
theorem c4_validation_iff (compile : String → Option (String → Bool))
    (text : String) (pair : ChapterBoundaryPair) :
    (validatePair compile (pySplitLines text) pair).is_valid = true ↔
    ∃ sp ep s e, compile pair.start_pattern = some sp ∧
      compile pair.end_pattern = some ep ∧
      matchLines sp (pySplitLines text) = [s] ∧
      matchLines ep (pySplitLines text) = [e] ∧ s < e :=
  validatePair_isValid_iff compile (pySplitLines text) pair

/-- C9: when both patterns match exactly one line but the start index is
not strictly below the end index, stage-3 validation still populates both
line fields with those indices while marking the pair invalid. -/
theorem c9_invalid_retains_lines (compile : String → Option (String → Bool))
    (lines : List String) (pair : ChapterBoundaryPair)
    (sp ep : String → Bool) (s e : Nat)
    (h1 : compile pair.start_pattern = some sp)
    (h2 : compile pair.end_pattern = some ep)
    (h3 : matchLines sp lines = [s]) (h4 : matchLines ep lines = [e])
    (h5 : e ≤ s) :
    (validatePair compile lines pair).start_line = some s ∧
    (validatePair compile lines pair).end_line = some e ∧
    (validatePair compile lines pair).is_valid = false := by
  refine ⟨?_, ?_, ?_⟩
  · simp [validatePair, h1, h2, h3, h4]
  · simp [validatePair, h1, h2, h3, h4]
  · simp [validatePair, h1, h2, h3, h4]
    omega

/-- C5: for every pair stage-3 validation accepts, the extracted chapter
text is the document's lines from `start_line` through `end_line`
inclusive, joined by newlines. -/
theorem c5_extraction_slice (compile : String → Option (String → Bool))
    (text : String) (pair : ChapterBoundaryPair)
    (h : (validatePair compile (pySplitLines text) pair).is_valid = true) :
    ∃ s e, (validatePair compile (pySplitLines text) pair).start_line = some s ∧
      (validatePair compile (pySplitLines text) pair).end_line = some e ∧
      extract_chapter (pySplitLines text) (validatePair compile (pySplitLines text) pair) =
        String.intercalate "\n"
          ((List.range (e + 1 - s)).map (fun k => (pySplitLines text).getD (s + k) "")) := by
  obtain ⟨sp, ep, s, e, hsp, hep, hsm, hem, hlt, hs, he⟩ := validatePair_valid h
  refine ⟨s, e, hs, he, ?_⟩
  have hlen : e < (pySplitLines text).length :=
    mem_matchLines_lt (hem ▸ List.mem_singleton_self e)
  simp only [extract_chapter, if_pos h, hs, he]
  rw [take_drop_slice (pySplitLines text) s e (le_of_lt hlt) hlen]

/-- C6: every `ChapterExtractionResult` a successful pipeline run returns
satisfies `0 ≤ start_line ≤ end_line < line_count(document)`, where
`line_count` is the number of newline-separated lines of the input. -/
theorem c6_line_bounds (env : Env)
    (sched : List (Int × String) → List (Int × String)) (text : String)
    (results : List ChapterExtractionResult)
    (h : extract_all_chapters env sched text = Except.ok results) :
    ∀ r ∈ results, 0 ≤ r.start_line ∧ r.start_line ≤ r.end_line ∧
      r.end_line < ((pySplitLines text).length : Int) := by
  obtain ⟨cc, chapters, pairs0, hid, hgen, hmap⟩ := extract_all_ok h
  intro r hr
  obtain ⟨pair, hpm, hstep⟩ := mapME_ok_forall hmap r hr
  have hvalid : pair.is_valid = true := (List.mem_filter.mp hpm).2
  obtain ⟨v, hv, hrec⟩ := stage4Step_ok hstep
  have hpmem := (List.mem_filter.mp hpm).1
  unfold validate_patterns at hpmem
  obtain ⟨p0, hp0mem, hp0eq⟩ := List.mem_map.mp hpmem
  subst hp0eq
  obtain ⟨sp, ep, s, e, hsp, hep, hsm, hem, hlt, hs, he⟩ := validatePair_valid hvalid
  have hlen : e < (pySplitLines text).length :=
    mem_matchLines_lt (hem ▸ List.mem_singleton_self e)
  subst hrec
  simp only [ChapterExtractionResult.mk.injEq]
  rw [hs, he]
  simp only [Option.getD_some, Int.ofNat_eq_natCast]
  omega

/-- C7: the sequence of results a successful pipeline run returns is
sorted in ascending order of `chapter_number`, for every completion order
of the concurrent stage-2 tasks (the universally quantified `sched`). -/
theorem c7_sorted_output (env : Env)
    (sched : List (Int × String) → List (Int × String)) (text : String)
    (results : List ChapterExtractionResult)
    (h : extract_all_chapters env sched text = Except.ok results) :
    List.Sorted (fun a b => a ≤ b) (results.map (fun r => r.chapter_number)) := by
  obtain ⟨cc, chapters, pairs0, hid, hgen, hmap⟩ := extract_all_ok h
  obtain ⟨raw, hraw, hsorteq⟩ := generate_all_ok hgen
  have hsorted : List.Pairwise pairLE pairs0 :=
    hsorteq ▸ List.sorted_insertionSort pairLE raw
  have hkeys : (validate_patterns env.compile text pairs0).map
      (fun p => p.chapter_number) = pairs0.map (fun p => p.chapter_number) := by
    unfold validate_patterns
    rw [List.map_map]
    exact List.map_congr_left (fun p _ =>
      (validatePair_fields env.compile (pySplitLines text) p).1)
  have h2 : List.Sorted (fun a b => a ≤ b)
      ((validate_patterns env.compile text pairs0).map (fun p => p.chapter_number)) := by
    rw [hkeys]
    exact List.pairwise_map.mpr hsorted
  have h3 : List.Sorted (fun a b => a ≤ b)
      (((validate_patterns env.compile text pairs0).filter
          (fun p => p.is_valid)).map (fun p => p.chapter_number)) :=
    List.Pairwise.sublist
      (List.Sublist.map _ (List.filter_sublist _)) h2
  have h4 : results.map (fun r => r.chapter_number) =
      ((validate_patterns env.compile text pairs0).filter
          (fun p => p.is_valid)).map (fun p => p.chapter_number) := by
    refine mapME_ok_map ?_ hmap
    intro pair r hstep
    obtain ⟨v, hv, hrec⟩ := stage4Step_ok hstep
    subst hrec
    rfl
  rw [h4]
  exact h3

/-- C1 (amended): for every result of a successful run, the verifier LM's
verdict on that chapter exists and `verification_passed = true` iff the LM
returned `is_correct = true` with confidence strictly greater than 0.8 —
the source uses `confidence > 0.8`, so confidence exactly 0.8 fails. -/
theorem c1_verification_threshold (env : Env)
    (sched : List (Int × String) → List (Int × String)) (text : String)
    (results : List ChapterExtractionResult)
    (h : extract_all_chapters env sched text = Except.ok results) :
    ∀ r ∈ results, ∃ v,
      env.verifyChapter (truncate2000 r.text) r.chapter_number r.chapter_title =
        Except.ok v ∧
      (r.verification_passed = true ↔ (v.is_correct = true ∧ v.confidence > mkRat 4 5)) := by
  obtain ⟨cc, chapters, pairs0, hid, hgen, hmap⟩ := extract_all_ok h
  intro r hr
  obtain ⟨pair, hpm, hstep⟩ := mapME_ok_forall hmap r hr
  obtain ⟨v, hv, hrec⟩ := stage4Step_ok hstep
  subst hrec
  refine ⟨v, hv, ?_⟩
  simp [Bool.and_eq_true, decide_eq_true_eq]

/-- C3 (amended): a per-chapter `LMError` is not isolated — the source has
no handler, so the exception propagates out of `extract_all_chapters`.  A
successful run therefore had a successful stage-2 LM call for every
scheduled chapter and a successful stage-4 LM call for every valid pair;
equivalently, a single failing call means no result list is returned. -/
theorem c3_lm_error_aborts_run (env : Env)
    (sched : List (Int × String) → List (Int × String)) (text : String)
    (results : List ChapterExtractionResult)
    (h : extract_all_chapters env sched text = Except.ok results) :
    ∃ cc chapters, identify_chapters env text 3000 = Except.ok (cc, chapters) ∧
      (∀ c ∈ sched chapters, ∃ b, env.generateBoundaries text c.1 c.2 = Except.ok b) ∧
      ∃ pairs0, generate_all_boundaries env text (sched chapters) = Except.ok pairs0 ∧
        ∀ pair ∈ (validate_patterns env.compile text pairs0).filter
            (fun p => p.is_valid),
          ∃ v, env.verifyChapter
              (truncate2000 (extract_chapter (pySplitLines text) pair))
              pair.chapter_number pair.chapter_title = Except.ok v := by
  obtain ⟨cc, chapters, pairs0, hid, hgen, hmap⟩ := extract_all_ok h
  refine ⟨cc, chapters, hid, ?_, pairs0, hgen, ?_⟩
  · obtain ⟨raw, hraw, _⟩ := generate_all_ok hgen
    intro c hc
    obtain ⟨pb, hpb⟩ := mapME_ok_mem hraw c hc
    obtain ⟨b, hb, _⟩ := generate_boundary_patterns_ok hpb
    exact ⟨b, hb⟩
  · intro pair hp
    obtain ⟨res, hres⟩ := mapME_ok_mem hmap pair hp
    obtain ⟨v, hv, _⟩ := stage4Step_ok hres
    exact ⟨v, hv⟩

/-- C2 (amended): duplicate chapter numbers in the parsed stage-1 identity
list are not rejected — there is no `IdentityConflict` anywhere in the
pipeline.  Whenever the three LM collaborators succeed on every call, the
run returns a result list, duplicates or not. -/
theorem c2_no_failure_on_duplicates (env : Env)
    (sched : List (Int × String) → List (Int × String)) (text : String)
    (h1 : ∀ s, ∃ o, env.identifyChapters s = Except.ok o)
    (h2 : ∀ t n c, ∃ o, env.generateBoundaries t n c = Except.ok o)
    (h3 : ∀ t n c, ∃ o, env.verifyChapter t n c = Except.ok o) :
    ∃ results, extract_all_chapters env sched text = Except.ok results := by
  have hid : ∃ cc chs, identify_chapters env text 3000 = Except.ok (cc, chs) := by
    obtain ⟨o, ho⟩ := h1 (String.intercalate "\n"
      (if (pySplitLines text).length > 3000 then (pySplitLines text).take 3000
       else pySplitLines text))
    refine ⟨o.chapter_count, parseChapterList o.chapter_list, ?_⟩
    simp only [identify_chapters, ho]
  obtain ⟨cc, chs, hid⟩ := hid
  have hcalls : ∀ c ∈ sched chs, ∃ pb,
      generate_boundary_patterns env text c.1 c.2 = Except.ok pb := by
    intro c _
    obtain ⟨b, hb⟩ := h2 text c.1 c.2
    cases hg : generate_boundary_patterns env text c.1 c.2 with
    | ok pb => exact ⟨pb, rfl⟩
    | error e =>
        simp only [generate_boundary_patterns, hb] at hg
        exact Except.noConfusion hg
  obtain ⟨raw, hraw⟩ := mapME_all_ok hcalls
  have hgen : generate_all_boundaries env text (sched chs) =
      Except.ok (List.insertionSort pairLE raw) := by
    simp only [generate_all_boundaries, hraw]
  have hverifs : ∀ pair ∈ (validate_patterns env.compile text
      (List.insertionSort pairLE raw)).filter (fun p => p.is_valid), ∃ res,
      stage4Step env (pySplitLines text) pair = Except.ok res := by
    intro pair _
    obtain ⟨v, hv⟩ := h3 (truncate2000 (extract_chapter (pySplitLines text) pair))
      pair.chapter_number pair.chapter_title
    cases hg : stage4Step env (pySplitLines text) pair with
    | ok res => exact ⟨res, rfl⟩
    | error e =>
        simp only [stage4Step, hv] at hg
        exact Except.noConfusion hg
  obtain ⟨rs, hrs⟩ := mapME_all_ok hverifs
  refine ⟨rs, ?_⟩
  simp only [extract_all_chapters, hid, hgen]
  exact hrs

/-- C8 (amended): stage-1 parsing accepts exactly the lines whose stripped
form is nonempty and contains the separator `". "`, and whose prefix before
the first `". "` converts with Python's `int`; the produced number is that
integer and the produced title is everything after the first `". "` of the
stripped line — trailing whitespace is gone (the whole line was stripped
first) but whitespace beyond the single separator space is kept.  All
other lines are skipped. -/
theorem c8_parse_characterization (line : String) (n : Int) (title : String) :
    parseChapterLine line = some (n, title) ↔
    (pyStrip line ≠ "" ∧ ∃ numStr,
      splitOnceDotSpace (pyStrip line) = some (numStr, title) ∧
      pyInt numStr = some n) := by
  by_cases h0 : pyStrip line = ""
  · simp [parseChapterLine, parseBodyE, h0]
  · have h0' : (pyStrip line != "") = true := bne_iff_ne.mpr h0
    cases hsp : splitOnceDotSpace (pyStrip line) with
    | none => simp [parseChapterLine, parseBodyE, h0', hsp, h0]
    | some p =>
      obtain ⟨numStr, t⟩ := p
      cases hpi : pyInt numStr with
      | none =>
        simp [parseChapterLine, parseBodyE, pyIntE, h0', hsp, hpi, h0]
      | some m =>
        simp only [parseChapterLine, parseBodyE, pyIntE, h0', if_true, hsp, hpi, h0,
          ne_eq, not_false_iff, true_and, Option.some.injEq, Prod.mk.injEq]
        constructor
        · rintro ⟨hm, ht⟩
          exact ⟨numStr, ⟨rfl, ht⟩, by rw [hpi, hm]⟩
        · rintro ⟨numStr', ⟨h1, h2⟩, hpi'⟩
          subst h1
          subst h2
          rw [hpi] at hpi'
          exact ⟨Option.some.inj hpi', rfl⟩

/-- C10: the stage-1 parse never raises for any LM output string — the only
throwing operation, `int(num_str)`, is wrapped in the loop's
`try/except ValueError`, so the exception-aware parse always returns `ok`
with the pure parse's value. -/
theorem c10_parse_total (s : String) :
    parseChapterListE s = Except.ok (parseChapterList s) := by
  unfold parseChapterListE parseChapterList
  induction pySplitLines s with
  | nil => rfl
  | cons a as ih =>
    simp only [mapFilterE, List.filterMap_cons]
    cases hb : parseBodyE a with
    | ok o =>
      rw [ih]
      cases o with
      | none => simp [tryValueError, parseChapterLine, hb]
      | some b => simp [tryValueError, parseChapterLine, hb]
    | error e =>
      cases e with
      | valueError m =>
        rw [ih]
        simp [tryValueError, parseChapterLine, hb]

/-- C1 counterexample: the verifier returns `is_correct = true` with
confidence exactly 0.8 — which satisfies the claimed `confidence ≥ 0.8` —
yet the run reports `verification_passed = false`, because the source
compares with `confidence > 0.8`. -/
theorem c1_counterexample :
    c1Env.verifyChapter (truncate2000 "A\nx\nB") 1 "One" =
      Except.ok { is_correct := true, confidence := mkRat 4 5, notes := "ok" } ∧
    mkRat 4 5 ≥ mkRat 4 5 ∧
    extract_all_chapters c1Env id happyText =
      Except.ok [{ chapter_number := 1, chapter_title := "One", text := "A\nx\nB",
                   start_line := 0, end_line := 2, word_count := 3,
                   verification_passed := false, verification_notes := some "ok" }] :=
  ⟨rfl, le_refl _, rfl⟩

/-- C2 counterexample: the stage-1 identities parsed from
`"1. A\n1. B"` contain the chapter number 1 twice, yet the run does not
fail — it returns a result for both entries. -/
theorem c2_counterexample :
    parseChapterList "1. A\n1. B" = [(1, "A"), (1, "B")] ∧
    extract_all_chapters c2Env id c2Text =
      Except.ok [{ chapter_number := 1, chapter_title := "A", text := "A0\nA1",
                   start_line := 0, end_line := 1, word_count := 2,
                   verification_passed := true, verification_notes := some "ok" },
                 { chapter_number := 1, chapter_title := "B", text := "B0\nB1",
                   start_line := 2, end_line := 3, word_count := 2,
                   verification_passed := true, verification_notes := some "ok" }] :=
  ⟨by decide, rfl⟩

/-- C3 counterexample: the stage-2 LM call fails for exactly one of the
three identified chapters (chapter 2), and `extract_all_chapters` returns
that error — no result for chapters 1 or 3 survives. -/
theorem c3_counterexample :
    c3Env.generateBoundaries happyText 1 "One" =
      Except.ok { start_pattern := "A", end_pattern := "B" } ∧
    c3Env.generateBoundaries happyText 3 "Three" =
      Except.ok { start_pattern := "A", end_pattern := "B" } ∧
    c3Env.generateBoundaries happyText 2 "Two" =
      Except.error { message := "boom" } ∧
    extract_all_chapters c3Env id happyText = Except.error { message := "boom" } :=
  ⟨rfl, rfl, rfl, rfl⟩

/-- C8 counterexample: on the line `"1.  Title"` (two spaces after the
dot) the source's parse keeps the title's leading space, while the spec's
regex `^\s*(\d+)\.\s+(.+?)\s*$` with trimming yields `"Title"`. -/
theorem c8_counterexample :
    parseChapterList "1.  Title" = [(1, " Title")] ∧
    specParseList "1.  Title" = [(1, "Title")] ∧
    parseChapterList "1.  Title" ≠ specParseList "1.  Title" := by
  refine ⟨by decide, by decide, by decide⟩

/-- Witness for C1's amended theorem at the happy-path scenario. -/
theorem c1_witness :
    ∃ v, happyEnv.verifyChapter (truncate2000 happyResult.text)
        happyResult.chapter_number happyResult.chapter_title = Except.ok v ∧
      (happyResult.verification_passed = true ↔
        (v.is_correct = true ∧ v.confidence > mkRat 4 5)) :=
  c1_verification_threshold happyEnv id happyText [happyResult] rfl happyResult
    (List.mem_singleton_self happyResult)

/-- Witness for C2's amended theorem, at an LM stub whose identity list
contains a duplicated chapter number. -/
theorem c2_witness :
    ∃ results, extract_all_chapters c2Env id c2Text = Except.ok results :=
  c2_no_failure_on_duplicates c2Env id c2Text
    (fun _ => ⟨{ chapter_count := 2, chapter_list := "1. A\n1. B" }, rfl⟩)
    (fun _ _ c => ⟨if c == "A"
        then { start_pattern := "A0", end_pattern := "A1" }
        else { start_pattern := "B0", end_pattern := "B1" }, rfl⟩)
    (fun _ _ _ => ⟨{ is_correct := true, confidence := mkRat 9 10, notes := "ok" }, rfl⟩)

/-- Witness for C3's amended theorem at the happy-path scenario. -/
theorem c3_witness :
    ∃ cc chapters, identify_chapters happyEnv happyText 3000 = Except.ok (cc, chapters) ∧
      (∀ c ∈ id chapters, ∃ b,
        happyEnv.generateBoundaries happyText c.1 c.2 = Except.ok b) ∧
      ∃ pairs0, generate_all_boundaries happyEnv happyText (id chapters) =
          Except.ok pairs0 ∧
        ∀ pair ∈ (validate_patterns happyEnv.compile happyText pairs0).filter
            (fun p => p.is_valid),
          ∃ v, happyEnv.verifyChapter
              (truncate2000 (extract_chapter (pySplitLines happyText) pair))
              pair.chapter_number pair.chapter_title = Except.ok v :=
  c3_lm_error_aborts_run happyEnv id happyText [happyResult] rfl

/-- Witness for C5 at the happy-path boundary pair. -/
theorem c5_witness :
    ∃ s e, (validatePair eqMatcher (pySplitLines happyText) happyPair).start_line = some s ∧
      (validatePair eqMatcher (pySplitLines happyText) happyPair).end_line = some e ∧
      extract_chapter (pySplitLines happyText)
          (validatePair eqMatcher (pySplitLines happyText) happyPair) =
        String.intercalate "\n"
          ((List.range (e + 1 - s)).map (fun k => (pySplitLines happyText).getD (s + k) "")) :=
  c5_extraction_slice eqMatcher happyText happyPair rfl

/-- Witness for C6 at the happy-path scenario. -/
theorem c6_witness :
    0 ≤ happyResult.start_line ∧ happyResult.start_line ≤ happyResult.end_line ∧
      happyResult.end_line < ((pySplitLines happyText).length : Int) :=
  c6_line_bounds happyEnv id happyText [happyResult] rfl happyResult
    (List.mem_singleton_self happyResult)

/-- Witness for C7 at the happy-path scenario. -/
theorem c7_witness :
    List.Sorted (fun a b => a ≤ b) ([happyResult].map (fun r => r.chapter_number)) :=
  c7_sorted_output happyEnv id happyText [happyResult] rfl

/-- Witness for C9: on the two-line document `"B\nA"` the start pattern
`"A"` matches only line 1 and the end pattern `"B"` matches only line 0,
so validation stores both indices and rejects the pair. -/
theorem c9_witness :
    (validatePair eqMatcher (pySplitLines "B\nA") happyPair).start_line = some 1 ∧
    (validatePair eqMatcher (pySplitLines "B\nA") happyPair).end_line = some 0 ∧
    (validatePair eqMatcher (pySplitLines "B\nA") happyPair).is_valid = false :=
  c9_invalid_retains_lines eqMatcher (pySplitLines "B\nA") happyPair
    (fun l => l == "A") (fun l => l == "B") 1 0 rfl rfl rfl rfl (by decide)

end ReaderAI
